import Mathlib

/-!
Verification development for the province-data extraction and growth-rate tool
(`modified_code.py`).  The shallow embedding below models the computational
core: cell values, indicator discovery, the forward-fill city/county scan,
sign inversion of negative indicators, growth-rate computation and the
comparison-table generation.  Spreadsheet cells are untyped: absent (`NaN`),
a string, or a number; numbers are modelled by `Rat` and absent numeric
values by `Option.none`.
-/

namespace XZ

/-- A raw spreadsheet cell: absent (pandas `NaN`), a string, or a number. -/
inductive Cell where
  | blank : Cell
  | str : String → Cell
  | num : Rat → Cell
deriving DecidableEq, Repr

/-- `pd.notna`: true for any cell that is not absent. -/
def Cell.notna : Cell → Bool
  | Cell.blank => false
  | _ => true

/-!
Rational arithmetic is expressed through `Rat.divInt` on numerators and
denominators.  These wrappers are proved equal to the field operations of
`Rat` (`qadd_eq` and friends below), so every statement about them reads as
ordinary arithmetic; the wrappers themselves merely keep all concrete
computations reducible.
-/

/-- Negation on `Rat`. -/
def qneg (a : Rat) : Rat := Rat.divInt (-a.num) (a.den : Int)

/-- Addition on `Rat`. -/
def qadd (a b : Rat) : Rat :=
  Rat.divInt (a.num * (b.den : Int) + b.num * (a.den : Int)) ((a.den : Int) * (b.den : Int))

/-- Subtraction on `Rat`. -/
def qsub (a b : Rat) : Rat := qadd a (qneg b)

/-- Multiplication on `Rat`. -/
def qmul (a b : Rat) : Rat := Rat.divInt (a.num * b.num) ((a.den : Int) * (b.den : Int))

/-- Division on `Rat` (zero divisor gives zero, as in `Rat`). -/
def qdiv (a b : Rat) : Rat := Rat.divInt (a.num * (b.den : Int)) ((a.den : Int) * b.num)

/-- Python `str.strip()` on the character list (whitespace both ends). -/
def pyStrip (s : String) : String :=
  ⟨((s.toList.dropWhile Char.isWhitespace).reverse.dropWhile Char.isWhitespace).reverse⟩

/-- Numeric value of a digit list, most significant first. -/
def digitsVal (cs : List Char) : Nat :=
  cs.foldl (fun a c => a * 10 + (c.toNat - Char.toNat '0')) 0

/-- Parse an unsigned decimal numeral (`"12"`, `"12.5"`, `".5"`, `"5."`). -/
def parsePositive? (cs : List Char) : Option Rat :=
  let intPart := cs.takeWhile Char.isDigit
  let rest := cs.dropWhile Char.isDigit
  match rest with
  | [] => if intPart = [] then none else some (Rat.divInt (digitsVal intPart : Int) 1)
  | '.' :: frac =>
      if frac.all Char.isDigit ∧ (intPart ≠ [] ∨ frac ≠ []) then
        some (Rat.divInt
          ((digitsVal intPart * 10 ^ frac.length + digitsVal frac : Nat) : Int)
          ((10 ^ frac.length : Nat) : Int))
      else none
  | _ => none

/-- Decimal parsing of a string, as `pd.to_numeric(·, errors='coerce')`
does on strings: anything non-numeric coerces to absent (`none`). -/
def parseDecimal? (s : String) : Option Rat :=
  match (pyStrip s).toList with
  | [] => none
  | '-' :: cs => (parsePositive? cs).map (fun x => qneg x)
  | '+' :: cs => parsePositive? cs
  | cs => parsePositive? cs

/-- `str(cell)`: the rendering Python applies before `.strip()` comparisons. -/
def Cell.toStr : Cell → String
  | Cell.blank => "nan"
  | Cell.str s => s
  | Cell.num x => toString x

/-- `pd.to_numeric(cell, errors='coerce')`: absent and non-numeric cells
become absent, never zero. -/
def Cell.toNumeric : Cell → Option Rat
  | Cell.blank => none
  | Cell.num x => some x
  | Cell.str s => parseDecimal? s

/-- A raw spreadsheet read with `header=None`: an ordered grid of untyped
cells.  Short rows are padded with `NaN` by pandas, which `cell` models by
defaulting to `Cell.blank`. -/
structure RawTable where
  rows : List (List Cell)
deriving DecidableEq, Repr

/-- `df.shape[0]`. -/
def RawTable.nrows (t : RawTable) : Nat := t.rows.length

/-- `df.shape[1]`: the padded (maximal) row width. -/
def RawTable.ncols (t : RawTable) : Nat :=
  t.rows.foldr (fun r m => max r.length m) 0

/-- `df.iloc[i, j]`, with pandas padding absent cells. -/
def RawTable.cell (t : RawTable) (i j : Nat) : Cell :=
  (t.rows.getD i []).getD j Cell.blank

/-- Python `range(start, stop, step)` for a positive step. -/
def rangeStep (start stop step : Nat) : List Nat :=
  (List.range ((stop - start + (step - 1)) / step)).map (fun k => start + step * k)

/-- `str(indicator).replace('\n', '')`: strip embedded line breaks. -/
def stripNewlines (s : String) : String :=
  ⟨s.toList.filter (fun c => c ≠ '\n')⟩

/-- `extract_indicators_from_template` (modified_code.py lines 114-153): from
the header row, scan columns starting at index 4 with stride 2, skipping
blank cells; return the discovered names (line breaks stripped) together
with their column indices.  An out-of-range header row yields `([], [])`. -/
def extract_indicators_from_template (t : RawTable) (header_row_idx : Nat) :
    List String × List Nat :=
  if header_row_idx ≥ t.nrows then ([], [])
  else
    (rangeStep 4 t.ncols 2).foldl
      (fun acc i =>
        if (t.cell header_row_idx i).notna then
          (acc.1 ++ [stripNewlines (t.cell header_row_idx i).toStr], acc.2 ++ [i])
        else acc)
      ([], [])

/-- Specification form of the discovered value-column indices: the stride-2
columns from index 4 whose header cell is present. -/
def specIndicatorColumns (t : RawTable) (header_row_idx : Nat) : List Nat :=
  (rangeStep 4 t.ncols 2).filter (fun i => (t.cell header_row_idx i).notna)

/-- One extracted data row: the target city, a county name, and one nullable
numeric value per discovered indicator. -/
structure ExtractedRow where
  city : String
  county : String
  values : List (Option Rat)
deriving DecidableEq, Repr

/-- The city name recovered from column index 2 of a row
(modified_code.py lines 209-210): stripped, blank and absent cells give `""`. -/
def cityNameAt (t : RawTable) (i : Nat) : String :=
  let city_value := if 2 < t.ncols then t.cell i 2 else Cell.blank
  if city_value.notna ∧ pyStrip city_value.toStr ≠ "" then pyStrip city_value.toStr else ""

/-- The county name recovered from column index 3 of a row
(modified_code.py lines 218-219). -/
def countyNameAt (t : RawTable) (i : Nat) : String :=
  let county_value := if 3 < t.ncols then t.cell i 3 else Cell.blank
  if county_value.notna then pyStrip county_value.toStr else ""

/-- The forward-fill update of `current_city` at row `i`
(modified_code.py lines 212-213). -/
def updateCity (t : RawTable) (i : Nat) (cur : Option String) : Option String :=
  if cityNameAt t i ≠ "" then some (cityNameAt t i) else cur

/-- The `current_city` state after the scan has consumed rows `0..n-1`. -/
def currentCityAfter (t : RawTable) : Nat → Option String
  | 0 => none
  | n + 1 => updateCity t n (currentCityAfter t n)

/-- The data row collected for row `i` (modified_code.py lines 224-236):
`[city_filter, county]` followed by the numeric parse of each designated
value cell, out-of-range columns giving absent. -/
def makeRowData (t : RawTable) (i : Nat) (city_filter : String)
    (value_columns : List Nat) : ExtractedRow :=
  { city := city_filter
    county := countyNameAt t i
    values := value_columns.map (fun c => if c < t.ncols then (t.cell i c).toNumeric else none) }

/-- The row scan of `process_excel_file` (modified_code.py lines 204-238),
processing `n` rows starting at row `i` with forward-fill state `cur`. -/
def extractFrom (t : RawTable) (city_filter : String) (value_columns : List Nat) :
    Nat → Nat → Option String → List ExtractedRow
  | _, 0, _ => []
  | i, n + 1, cur =>
      let cur' := updateCity t i cur
      (if cur' = some city_filter ∧ countyNameAt t i ≠ "" then
        [makeRowData t i city_filter value_columns]
      else [])
        ++ extractFrom t city_filter value_columns (i + 1) n cur'

/-- `city_data` as collected by `process_excel_file`: the full row scan. -/
def extractCityData (t : RawTable) (city_filter : String)
    (value_columns : List Nat) : List ExtractedRow :=
  extractFrom t city_filter value_columns 0 t.nrows none

/-- Specification form of the row scan: row `i` contributes exactly when the
forward-filled city at row `i` matches the target and the county is
non-blank. -/
def specExtract (t : RawTable) (city_filter : String)
    (value_columns : List Nat) : List ExtractedRow :=
  (List.range t.nrows).filterMap (fun i =>
    if currentCityAfter t (i + 1) = some city_filter ∧ countyNameAt t i ≠ "" then
      some (makeRowData t i city_filter value_columns)
    else none)

/-- Specification form of forward fill: the city of the most recent row
`j ≤ i` whose city cell is non-blank. -/
def lastNonBlankCity (t : RawTable) (i : Nat) : Option String :=
  ((List.range (i + 1)).reverse.find? (fun j => cityNameAt t j != "")).map (cityNameAt t)

/-- Fixed output column names (modified_code.py lines 30-31). -/
def OUTPUT_CITY_COL_NAME : String := "地市"

/-- Fixed output column name for the county column. -/
def OUTPUT_COUNTY_COL_NAME : String := "县级市、区"

/-- The DataFrame built by `process_excel_file` (modified_code.py lines
256-259): columns `[地市, 县级市、区] ++ indicators`, one `ExtractedRow` per
collected row. -/
structure DataFrame where
  indicators : List String
  rows : List ExtractedRow
deriving DecidableEq, Repr

/-- `df.columns`. -/
def DataFrame.columns (df : DataFrame) : List String :=
  [OUTPUT_CITY_COL_NAME, OUTPUT_COUNTY_COL_NAME] ++ df.indicators

/-- `df[df[OUTPUT_COUNTY_COL_NAME] == county]` followed by taking the first
matching row (`.values[0]`), `none` when the selection `.empty` holds. -/
def findRow (df : DataFrame) (county : String) : Option ExtractedRow :=
  df.rows.find? (fun r => r.county == county)

/-- `pd.to_numeric(row[indicator].values[0], errors='coerce')`: positional
lookup of a column by name; the two leading name columns re-parse as
numbers (coercing to absent when non-numeric). -/
def DataFrame.lookupValue (df : DataFrame) (r : ExtractedRow) (indicator : String) :
    Option Rat :=
  match df.columns.findIdx? (fun c => c == indicator) with
  | none => none
  | some 0 => parseDecimal? r.city
  | some 1 => parseDecimal? r.county
  | some (k + 2) => r.values.getD k none

/-- The outcome of `process_excel_file` as observed by its caller and the
operator: `ret` is the returned pair, `dialog` the `messagebox.showerror`
title/message raised on failure (modified_code.py lines 188-194, 240-246). -/
structure ProcOutput where
  ret : Option DataFrame × List String
  dialog : Option (String × String)
deriving DecidableEq, Repr

/-- The computational core of `process_excel_file` (modified_code.py lines
155-311): discover indicators at header row 1; fail with the
missing-indicators dialog when none are found; otherwise run the row scan
and fail with the no-city-data dialog when it collects nothing; on success
return the extracted DataFrame and the indicator names. -/
def process_excel_file (t : RawTable) (input_path city_filter : String) : ProcOutput :=
  let ic := extract_indicators_from_template t 1
  if ic.1 = [] then
    { ret := (none, [])
      dialog := some ("指标错误", "在文件 " ++ input_path ++ " 中未找到有效指标") }
  else
    let city_data := extractCityData t city_filter ic.2
    if city_data = [] then
      { ret := (none, [])
        dialog := some ("数据错误",
          "在文件 " ++ input_path ++ " 中未找到" ++ city_filter ++ "市的数据") }
    else
      { ret := (some { indicators := ic.1, rows := city_data }, ic.1), dialog := none }

/-- `extract_indicators_and_counties` (modified_code.py lines 313-332): both
lists come from the prior-year DataFrame alone. -/
def extract_indicators_and_counties (df_last_year df_this_year : DataFrame) :
    List String × List String :=
  (df_last_year.columns.filter
      (fun col => col ≠ OUTPUT_CITY_COL_NAME ∧ col ≠ OUTPUT_COUNTY_COL_NAME),
   df_last_year.rows.map (fun r => r.county))

/-- A computed growth figure: a percentage, `np.inf`, or `np.nan`. -/
inductive GrowthVal where
  | rate : Rat → GrowthVal
  | inf : GrowthVal
  | nan : GrowthVal
deriving DecidableEq, Repr

/-- The growth-rate computation (modified_code.py lines 377-382).  When the
previous value is present and non-zero the code evaluates
`(this - last) / last * 100`; pandas `NaN` arithmetic makes that expression
`NaN` whenever the current value is absent, which the wildcard arm models. -/
def growthRate (last_year_value this_year_value : Option Rat) : GrowthVal :=
  if last_year_value ≠ none ∧ last_year_value ≠ some 0 then
    match last_year_value, this_year_value with
    | some l, some c => GrowthVal.rate (qmul (qdiv (qsub c l) l) 100)
    | _, _ => GrowthVal.nan
  else if this_year_value ≠ none ∧ this_year_value ≠ some 0 ∧
      (last_year_value = none ∨ last_year_value = some 0) then
    GrowthVal.inf
  else
    GrowthVal.nan

/-- Per-indicator result record (modified_code.py lines 353-358): Python
dicts keyed by county, modelled as insertion-ordered association lists. -/
structure IndicatorData where
  name : String
  current_values : List (String × Rat)
  previous_values : List (String × Rat)
  growth_rates : List (String × GrowthVal)
deriving DecidableEq, Repr

/-- Python dict assignment `d[k] = v`: replace in place or append. -/
def dictInsert {α : Type} : List (String × α) → String → α → List (String × α)
  | [], k, v => [(k, v)]
  | (k', v') :: rest, k, v =>
      if k' = k then (k', v) :: rest else (k', v') :: dictInsert rest k v

/-- Python dict lookup `d.get(k)`. -/
def dictGet {α : Type} : List (String × α) → String → Option α
  | [], _ => none
  | (k', v) :: rest, k => if k' = k then some v else dictGet rest k

/-- The body of the county loop of `calculate_growth_rates`
(modified_code.py lines 361-384): when both years have a row for the
county, record the display values (absent defaulting to `0`) and the growth
rate; otherwise leave the record unchanged. -/
def processCounty (df_last_year df_this_year : DataFrame) (indicator : String)
    (d : IndicatorData) (county : String) : IndicatorData :=
  match findRow df_last_year county, findRow df_this_year county with
  | some last_year_row, some this_year_row =>
      let last_year_value := df_last_year.lookupValue last_year_row indicator
      let this_year_value := df_this_year.lookupValue this_year_row indicator
      { d with
        current_values := dictInsert d.current_values county (this_year_value.getD 0)
        previous_values := dictInsert d.previous_values county (last_year_value.getD 0)
        growth_rates := dictInsert d.growth_rates county
          (growthRate last_year_value this_year_value) }
  | _, _ => d

/-- `calculate_growth_rates` (modified_code.py lines 334-389). -/
def calculate_growth_rates (df_last_year df_this_year : DataFrame)
    (indicators counties : List String) : List (String × IndicatorData) :=
  indicators.foldl
    (fun result_data indicator =>
      dictInsert result_data indicator
        (counties.foldl (processCounty df_last_year df_this_year indicator)
          { name := indicator, current_values := [], previous_values := []
            growth_rates := [] }))
    []

/-- Registering one checkbox per indicator name in `indicator_vars`
(modified_code.py lines 87-92): a dict keyed by name, so a repeated name
keeps its first insertion position and occurs once. -/
def insertKey (acc : List String) (a : String) : List String :=
  if a ∈ acc then acc else acc ++ [a]

/-- The key sequence of `indicator_vars` in insertion order. -/
def dedupKeys (l : List String) : List String := l.foldl insertKey []

/-- `select_negative_indicators` (modified_code.py lines 49-109), with the
user's checkbox state abstracted as a choice predicate on names: the
confirmed selection is the checked subset of the distinct indicator names,
in first-appearance order. -/
def select_negative_indicators (indicators : List String) (chosen : String → Bool) :
    List String :=
  (dedupKeys indicators).filter chosen

/-- Sign inversion of one indicator column (modified_code.py lines 948-956):
re-coerce to numeric and negate every present value of each column bearing
that name; absent values stay absent. -/
def invertColumn (df : DataFrame) (indicator : String) : DataFrame :=
  { df with rows := df.rows.map (fun r =>
      { r with values := r.values.mapIdx (fun k v =>
          if df.indicators[k]? = some indicator then v.map (fun x => qmul x (qneg 1)) else v) }) }

/-- The negative-indicator loop of `run_processing` (modified_code.py lines
947-956): for each selected name, invert it in the current-year table and
then in the prior-year table when the column exists. -/
def applyNegs (negs : List String) (df_this_year df_last_year : DataFrame) :
    DataFrame × DataFrame :=
  negs.foldl
    (fun p indicator =>
      (if indicator ∈ p.1.columns then invertColumn p.1 indicator else p.1,
       if indicator ∈ p.2.columns then invertColumn p.2 indicator else p.2))
    (df_this_year, df_last_year)

/-- Round to the nearest integer, halves up: the rounding behind the
two-decimal display format at the values this program produces. -/
def roundHalfUp (x : Rat) : Int := (qadd x (Rat.divInt 1 2)).floor

/-- Comma-grouping pass over reversed digit characters. -/
def commaRev : List Char → Nat → List Char
  | [], _ => []
  | c :: cs, n =>
      if n % 3 = 0 ∧ n ≠ 0 then ',' :: c :: commaRev cs (n + 1)
      else c :: commaRev cs (n + 1)

/-- Insert thousands separators into a digit string. -/
def insertCommas (s : String) : String :=
  ⟨(commaRev s.toList.reverse 0).reverse⟩

/-- Zero-padded two-digit rendering of `n < 100`. -/
def pad2 (n : Nat) : String :=
  if n < 10 then "0" ++ toString n else toString n

/-- Python `f"{x:,.2f}"`: fixed two decimals with thousands separators. -/
def formatFixed2 (x : Rat) : String :=
  let n : Int := roundHalfUp (qmul x 100)
  let m : Nat := n.natAbs
  (if n < 0 then "-" else "") ++ insertCommas (toString (m / 100)) ++ "." ++ pad2 (m % 100)

/-- A current/prior value cell (modified_code.py lines 416, 423): a missing
dict entry renders `"N/A"`, a number renders with two decimals. -/
def formatValueCell (v : Option Rat) : String :=
  match v with
  | some x => formatFixed2 x
  | none => "N/A"

/-- A growth cell (modified_code.py lines 429-436): absent or `NaN` growth
renders `"N/A"`, infinite growth the literal `"无限增长"`, and a finite rate
as a two-decimal percentage. -/
def formatGrowthCell (g : Option GrowthVal) : String :=
  match g with
  | some (GrowthVal.inf) => "无限增长"
  | some (GrowthVal.rate x) => formatFixed2 x ++ "%"
  | some (GrowthVal.nan) => "N/A"
  | none => "N/A"

/-- The indicator label shown in the comparison table (modified_code.py line
413): the name truncated at the first full-width parenthesis. -/
def indicatorLabel (name : String) : String :=
  ⟨name.toList.takeWhile (fun c => c ≠ '（')⟩

/-- One output row built by appending a cell per county to a label
(the `for county in counties: row.append(...)` loops). -/
def buildCellRow (label : String) (counties : List String)
    (cellOf : String → String) : List String :=
  counties.foldl (fun row county => row ++ [cellOf county]) [label]

/-- `generate_output_table` (modified_code.py lines 391-445), as the grid of
cell strings it writes: for each indicator three consecutive rows — current
values, prior values, growth rates — one cell per county after the label. -/
def generate_output_table (result_data : List (String × IndicatorData))
    (counties : List String) : List (List String) :=
  result_data.foldl
    (fun rows p =>
      rows ++
        [buildCellRow (indicatorLabel p.1) counties
            (fun county => formatValueCell (dictGet p.2.current_values county)),
         buildCellRow "同期" counties
            (fun county => formatValueCell (dictGet p.2.previous_values county)),
         buildCellRow "同比增幅%" counties
            (fun county => formatGrowthCell (dictGet p.2.growth_rates county))])
    []

/-- Specification form of one output row: the label followed by the county
cells in county order. -/
def specRow (label : String) (counties : List String)
    (cellOf : String → String) : List String :=
  label :: counties.map cellOf

/-- Specification form of the comparison grid: three rows per indicator. -/
def specOutputTable (result_data : List (String × IndicatorData))
    (counties : List String) : List (List String) :=
  (result_data.map (fun p =>
    [specRow (indicatorLabel p.1) counties
        (fun county => formatValueCell (dictGet p.2.current_values county)),
     specRow "同期" counties
        (fun county => formatValueCell (dictGet p.2.previous_values county)),
     specRow "同比增幅%" counties
        (fun county => formatGrowthCell (dictGet p.2.growth_rates county))])).flatten

/-- The post-extraction pipeline of `run_processing` (modified_code.py lines
934-966): determine indicators and counties from the extracted tables, let
the user select negative indicators, invert them in both years' tables, and
only then compute growth rates and build the comparison table. -/
def run_core (df_last_year df_this_year : DataFrame) (chosen : String → Bool) :
    List (List String) :=
  let ic := extract_indicators_and_counties df_last_year df_this_year
  let negative_indicators := select_negative_indicators ic.1 chosen
  let p := applyNegs negative_indicators df_this_year df_last_year
  generate_output_table (calculate_growth_rates p.2 p.1 ic.1 ic.2) ic.2

/-- `run_processing` (modified_code.py lines 830-1066), restricted to its
data flow: process the prior-year file and abort on failure, process the
current-year file and abort on failure, then run the comparison pipeline. -/
def run_processing (t_last t_this : RawTable) (path_last path_this : String)
    (chosen : String → Bool) : Option (List (List String)) :=
  match (process_excel_file t_last path_last "忻州").ret.1 with
  | none => none
  | some df_last_year =>
      match (process_excel_file t_this path_this "忻州").ret.1 with
      | none => none
      | some df_this_year => some (run_core df_last_year df_this_year chosen)

/-- A value that is absent or zero, the condition the spec calls
"absent/zero" for growth classification. -/
def absentOrZero (v : Option Rat) : Prop := v = none ∨ v = some 0

/-- Claim C1's classification of the growth rate at one (previous, current)
pair, exactly as the spec states it: undefined only when both values are
absent/zero, infinite when the previous is absent/zero and the current
present and non-zero, and in every other case the percentage formula. -/
def growthClaim (prev cur : Option Rat) : Prop :=
  (growthRate prev cur = GrowthVal.nan ↔ (absentOrZero prev ∧ absentOrZero cur)) ∧
  (growthRate prev cur = GrowthVal.inf ↔
    (absentOrZero prev ∧ ∃ c, cur = some c ∧ c ≠ 0)) ∧
  (¬ absentOrZero prev →
    ∃ p c, prev = some p ∧ cur = some c ∧
      growthRate prev cur = GrowthVal.rate ((c - p) / p * 100))

/-- Concrete table realising the spec's forward-fill scenario: city column
values `["A", "", "", "B", ""]` with five distinct counties. -/
def T3 : RawTable := ⟨[
  [Cell.blank, Cell.blank, Cell.str "A", Cell.str "c1"],
  [Cell.blank, Cell.blank, Cell.blank, Cell.str "c2"],
  [Cell.blank, Cell.blank, Cell.blank, Cell.str "c3"],
  [Cell.blank, Cell.blank, Cell.str "B", Cell.str "c4"],
  [Cell.blank, Cell.blank, Cell.blank, Cell.str "c5"]]⟩

/-- Concrete table with no valid indicator header: one row, so the fixed
header row index 1 is out of range. -/
def Tmiss : RawTable := ⟨[[Cell.str "x"]]⟩

/-- Concrete table whose header row carries an indicator but which contains
no row of the target city. -/
def Tnocity : RawTable := ⟨[
  [],
  [Cell.blank, Cell.blank, Cell.blank, Cell.blank, Cell.str "指标A"]]⟩

/-- Prior-year table of the end-to-end scenario: one indicator `销量（件）`,
two county rows with values 10 and 20. -/
def Tprior : RawTable := ⟨[
  [],
  [Cell.blank, Cell.blank, Cell.blank, Cell.blank, Cell.str "销量（件）"],
  [Cell.blank, Cell.blank, Cell.str "忻州", Cell.str "甲", Cell.num 10],
  [Cell.blank, Cell.blank, Cell.blank, Cell.str "乙", Cell.num 20]]⟩

/-- Current-year table of the end-to-end scenario: values 15 and 8. -/
def Tcurr : RawTable := ⟨[
  [],
  [Cell.blank, Cell.blank, Cell.blank, Cell.blank, Cell.str "销量（件）"],
  [Cell.blank, Cell.blank, Cell.str "忻州", Cell.str "甲", Cell.num 15],
  [Cell.blank, Cell.blank, Cell.blank, Cell.str "乙", Cell.num 8]]⟩

/-- Concrete table whose single county row carries a non-numeric value cell. -/
def T6 : RawTable := ⟨[
  [],
  [Cell.blank, Cell.blank, Cell.blank, Cell.blank, Cell.str "指标A"],
  [Cell.blank, Cell.blank, Cell.str "忻州", Cell.str "甲", Cell.str "abc"]]⟩

/-- Concrete one-indicator, one-county prior-year DataFrame. -/
def dfL1 : DataFrame := ⟨["指标A"], [⟨"忻州", "甲", [some 100]⟩]⟩

/-- Concrete one-indicator, one-county current-year DataFrame. -/
def dfT1 : DataFrame := ⟨["指标A"], [⟨"忻州", "甲", [some 150]⟩]⟩

/-- Concrete per-indicator record produced for `dfL1`/`dfT1`. -/
def d1 : IndicatorData :=
  { name := "指标A", current_values := [("甲", 150)], previous_values := [("甲", 100)]
    growth_rates := [("甲", GrowthVal.rate 50)] }

/-!  Helper lemmas. -/

lemma qneg_eq (a : Rat) : qneg a = -a := by
  rw [qneg, Rat.divInt_eq_div]
  push_cast
  rw [neg_div, Rat.num_div_den]

lemma qadd_eq (a b : Rat) : qadd a b = a + b := by
  have ha : ((a.den : ℚ)) ≠ 0 := by exact_mod_cast a.den_ne_zero
  have hb : ((b.den : ℚ)) ≠ 0 := by exact_mod_cast b.den_ne_zero
  rw [qadd, Rat.divInt_eq_div]
  conv_rhs => rw [← Rat.num_div_den a, ← Rat.num_div_den b]
  push_cast
  field_simp

lemma qsub_eq (a b : Rat) : qsub a b = a - b := by
  rw [qsub, qadd_eq, qneg_eq, sub_eq_add_neg]

lemma qmul_eq (a b : Rat) : qmul a b = a * b := by
  have ha : ((a.den : ℚ)) ≠ 0 := by exact_mod_cast a.den_ne_zero
  have hb : ((b.den : ℚ)) ≠ 0 := by exact_mod_cast b.den_ne_zero
  rw [qmul, Rat.divInt_eq_div]
  conv_rhs => rw [← Rat.num_div_den a, ← Rat.num_div_den b]
  push_cast
  field_simp

lemma qdiv_eq (a b : Rat) : qdiv a b = a / b := by
  have ha : ((a.den : ℚ)) ≠ 0 := by exact_mod_cast a.den_ne_zero
  have hb : ((b.den : ℚ)) ≠ 0 := by exact_mod_cast b.den_ne_zero
  rcases eq_or_ne b 0 with rb | rb
  · subst rb
    simp [qdiv, Rat.divInt_eq_div]
  · have hbn : ((b.num : ℚ)) ≠ 0 := by
      exact_mod_cast (Rat.num_ne_zero).2 rb
    rw [qdiv, Rat.divInt_eq_div]
    conv_rhs => rw [← Rat.num_div_den a, ← Rat.num_div_den b]
    push_cast
    field_simp

lemma extract_foldl (f : Nat → Cell) (l : List Nat) (a : List String) (b : List Nat) :
    l.foldl (fun acc i =>
        if (f i).notna then (acc.1 ++ [stripNewlines (f i).toStr], acc.2 ++ [i]) else acc)
      (a, b)
      = (a ++ (l.filter (fun i => (f i).notna)).map (fun i => stripNewlines (f i).toStr),
         b ++ l.filter (fun i => (f i).notna)) := by
  induction l generalizing a b with
  | nil => simp
  | cons x l ih =>
    by_cases h : (f x).notna
    · simp [h, List.filter_cons, ih]
    · simp [h, List.filter_cons, ih]

lemma cell_blank_of_ge (t : RawTable) (i j : Nat) (h : t.nrows ≤ i) :
    t.cell i j = Cell.blank := by
  unfold RawTable.cell
  rw [List.getD_eq_default _ _ h]
  rfl

lemma extract_eq_specIndicator (t : RawTable) (h : Nat) :
    extract_indicators_from_template t h =
      ((specIndicatorColumns t h).map (fun i => stripNewlines (t.cell h i).toStr),
       specIndicatorColumns t h) := by
  unfold extract_indicators_from_template specIndicatorColumns
  by_cases hg : h ≥ t.nrows
  · rw [if_pos hg]
    have hnil : (rangeStep 4 t.ncols 2).filter (fun i => (t.cell h i).notna) = [] := by
      apply List.filter_eq_nil_iff.2
      intro a _
      rw [cell_blank_of_ge t h a hg]
      simp [Cell.notna]
    rw [hnil]
    simp
  · rw [if_neg hg, extract_foldl (t.cell h)]
    simp

lemma extractFrom_eq_aux (t : RawTable) (cf : String) (v : List Nat) :
    ∀ (n i : Nat), extractFrom t cf v i n (currentCityAfter t i) =
      ((List.range n).map (fun k => i + k)).filterMap (fun j =>
        if currentCityAfter t (j + 1) = some cf ∧ countyNameAt t j ≠ "" then
          some (makeRowData t j cf v)
        else none) := by
  intro n
  induction n with
  | zero => intro i; simp [extractFrom]
  | succ n ih =>
    intro i
    rw [List.range_succ_eq_map]
    simp only [List.map_cons, List.map_map, List.filterMap_cons]
    have hmap : (List.range n).map ((fun k => i + k) ∘ Nat.succ)
        = (List.range n).map (fun k => (i + 1) + k) := by
      apply List.map_congr_left
      intro a _
      simp [Function.comp]
      omega
    rw [hmap, ← ih (i + 1)]
    show (if currentCityAfter t (i + 1) = some cf ∧ countyNameAt t i ≠ "" then
        [makeRowData t i cf v] else [])
        ++ extractFrom t cf v (i + 1) n (currentCityAfter t (i + 1)) = _
    by_cases hc : currentCityAfter t (i + 1) = some cf ∧ countyNameAt t i ≠ ""
    · simp only [if_pos hc, Nat.add_zero]
      rfl
    · simp only [if_neg hc, Nat.add_zero]
      rfl

lemma extract_eq_spec (t : RawTable) (cf : String) (v : List Nat) :
    extractCityData t cf v = specExtract t cf v := by
  have h := extractFrom_eq_aux t cf v t.nrows 0
  rw [show currentCityAfter t 0 = none from rfl] at h
  unfold extractCityData specExtract
  rw [h]
  congr 1
  simp

lemma ccA_eq_lastNonBlank (t : RawTable) : ∀ (i : Nat),
    currentCityAfter t (i + 1) = lastNonBlankCity t i := by
  intro i
  induction i with
  | zero =>
    unfold lastNonBlankCity
    show updateCity t 0 none = _
    unfold updateCity
    by_cases h : cityNameAt t 0 = ""
    · simp [h, List.range_succ]
    · simp [h, List.range_succ]
  | succ i ih =>
    unfold lastNonBlankCity
    show updateCity t (i + 1) (currentCityAfter t (i + 1)) = _
    rw [List.range_succ]
    simp only [List.reverse_append, List.reverse_cons, List.reverse_nil, List.nil_append,
      List.cons_append, List.find?_cons]
    unfold updateCity
    by_cases h : cityNameAt t (i + 1) = ""
    · simp only [h]
      have hb : (("" : String) != "") = false := by decide
      simp [hb, ih, lastNonBlankCity]
    · have hb : (cityNameAt t (i + 1) != "") = true := by
        simp [bne_iff_ne, h]
      simp [h, hb]

lemma dictGet_insert_self {α : Type} (d : List (String × α)) (k : String) (v : α) :
    dictGet (dictInsert d k v) k = some v := by
  induction d with
  | nil => simp [dictInsert, dictGet]
  | cons p rest ih =>
    by_cases h : p.1 = k
    · simp [dictInsert, dictGet, h]
    · simp [dictInsert, dictGet, h, ih]

lemma dictGet_insert_ne {α : Type} (d : List (String × α)) (k k' : String) (v : α)
    (h : k' ≠ k) : dictGet (dictInsert d k' v) k = dictGet d k := by
  induction d with
  | nil => simp [dictInsert, dictGet, h]
  | cons p rest ih =>
    by_cases hp : p.1 = k'
    · simp [dictInsert, dictGet, hp, h]
    · simp only [dictInsert, if_neg hp]
      by_cases hk : p.1 = k
      · simp [dictGet, hk]
      · simp [dictGet, hk, ih]

lemma growth_inner_foldl (df_last_year df_this_year : DataFrame) (indicator county : String)
    (last_year_row this_year_row : ExtractedRow)
    (hl : findRow df_last_year county = some last_year_row)
    (ht : findRow df_this_year county = some this_year_row) :
    ∀ (cs : List String) (d : IndicatorData),
      (county ∈ cs ∨ dictGet d.growth_rates county =
        some (growthRate (df_last_year.lookupValue last_year_row indicator)
          (df_this_year.lookupValue this_year_row indicator))) →
      dictGet (cs.foldl (processCounty df_last_year df_this_year indicator) d).growth_rates county =
        some (growthRate (df_last_year.lookupValue last_year_row indicator)
          (df_this_year.lookupValue this_year_row indicator)) := by
  intro cs
  induction cs with
  | nil =>
    intro d hd
    rcases hd with hmem | hget
    · simp at hmem
    · simpa using hget
  | cons c cs ih =>
    intro d hd
    simp only [List.foldl_cons]
    by_cases hc : c = county
    · subst hc
      apply ih
      right
      unfold processCounty
      rw [hl, ht]
      simp only
      exact dictGet_insert_self _ _ _
    · apply ih
      rcases hd with hmem | hget
      · rcases List.mem_cons.1 hmem with h1 | h2
        · exact absurd h1.symm hc
        · exact Or.inl h2
      · right
        unfold processCounty
        rcases hfl : findRow df_last_year c with _ | lr
        · simpa using hget
        · rcases hft : findRow df_this_year c with _ | tr
          · simpa using hget
          · simp only
            rw [dictGet_insert_ne _ _ _ _ hc]
            exact hget

lemma dict_foldl_insert {α : Type} (F : String → α) (k : String) :
    ∀ (l : List String) (res : List (String × α)),
      (k ∈ l ∨ dictGet res k = some (F k)) →
      dictGet (l.foldl (fun res i => dictInsert res i (F i)) res) k = some (F k) := by
  intro l
  induction l with
  | nil =>
    intro res h
    rcases h with hmem | hget
    · simp at hmem
    · simpa using hget
  | cons a l ih =>
    intro res h
    simp only [List.foldl_cons]
    by_cases ha : a = k
    · subst ha
      exact ih _ (Or.inr (dictGet_insert_self _ _ _))
    · apply ih
      rcases h with hmem | hget
      · rcases List.mem_cons.1 hmem with h1 | h2
        · exact absurd h1.symm ha
        · exact Or.inl h2
      · right
        rw [dictGet_insert_ne _ _ _ _ ha]
        exact hget

lemma calc_growth_lookup (df_last_year df_this_year : DataFrame)
    (indicators counties : List String) (indicator county : String)
    (last_year_row this_year_row : ExtractedRow) (d : IndicatorData)
    (hind : indicator ∈ indicators) (hco : county ∈ counties)
    (hl : findRow df_last_year county = some last_year_row)
    (ht : findRow df_this_year county = some this_year_row)
    (hd : dictGet (calculate_growth_rates df_last_year df_this_year indicators counties)
      indicator = some d) :
    dictGet d.growth_rates county =
      some (growthRate (df_last_year.lookupValue last_year_row indicator)
        (df_this_year.lookupValue this_year_row indicator)) := by
  have h1 := dict_foldl_insert
    (fun i => counties.foldl (processCounty df_last_year df_this_year i)
      { name := i, current_values := [], previous_values := [], growth_rates := [] })
    indicator indicators [] (Or.inl hind)
  have h2 : dictGet (calculate_growth_rates df_last_year df_this_year indicators counties)
      indicator
      = some (counties.foldl (processCounty df_last_year df_this_year indicator)
        { name := indicator, current_values := [], previous_values := [], growth_rates := [] }) :=
    h1
  rw [hd] at h2
  have h3 := growth_inner_foldl df_last_year df_this_year indicator county
    last_year_row this_year_row hl ht counties
    { name := indicator, current_values := [], previous_values := [], growth_rates := [] }
    (Or.inl hco)
  rw [← Option.some.inj h2] at h3
  exact h3

lemma growthRate_of_present (l c : Rat) (hl : l ≠ 0) :
    growthRate (some l) (some c) = GrowthVal.rate ((c - l) / l * 100) := by
  rw [growthRate, if_pos ⟨by simp, by simp [hl]⟩]
  rw [qmul_eq, qdiv_eq, qsub_eq]

lemma growthRate_nan_iff (lv tv : Option Rat) :
    growthRate lv tv = GrowthVal.nan ↔
      ((absentOrZero lv ∧ absentOrZero tv) ∨ (¬ absentOrZero lv ∧ tv = none)) := by
  rcases lv with _ | l
  · rcases tv with _ | c
    · simp [growthRate, absentOrZero]
    · by_cases hc : c = 0
      · subst hc; simp [growthRate, absentOrZero]
      · simp [growthRate, absentOrZero, hc]
  · by_cases hl : l = 0
    · subst hl
      rcases tv with _ | c
      · simp [growthRate, absentOrZero]
      · by_cases hc : c = 0
        · subst hc; simp [growthRate, absentOrZero]
        · simp [growthRate, absentOrZero, hc]
    · rcases tv with _ | c
      · simp [growthRate, absentOrZero, hl]
      · simp [growthRate, absentOrZero, hl]

lemma growthRate_inf_iff (lv tv : Option Rat) :
    growthRate lv tv = GrowthVal.inf ↔
      (absentOrZero lv ∧ ∃ c, tv = some c ∧ c ≠ 0) := by
  rcases lv with _ | l
  · rcases tv with _ | c
    · simp [growthRate, absentOrZero]
    · by_cases hc : c = 0
      · subst hc; simp [growthRate, absentOrZero]
      · simp [growthRate, absentOrZero, hc]
  · by_cases hl : l = 0
    · subst hl
      rcases tv with _ | c
      · simp [growthRate, absentOrZero]
      · by_cases hc : c = 0
        · subst hc; simp [growthRate, absentOrZero]
        · simp [growthRate, absentOrZero, hc]
    · rcases tv with _ | c
      · simp [growthRate, absentOrZero, hl]
      · simp [growthRate, absentOrZero, hl]

lemma growthRate_rate_inv (lv tv : Option Rat) (x : Rat)
    (h : growthRate lv tv = GrowthVal.rate x) :
    ∃ l c, lv = some l ∧ l ≠ 0 ∧ tv = some c ∧ x = (c - l) / l * 100 := by
  rcases lv with _ | l
  · rcases tv with _ | c
    · simp [growthRate] at h
    · by_cases hc : c = 0
      · subst hc; simp [growthRate] at h
      · simp [growthRate, hc] at h
  · by_cases hl : l = 0
    · subst hl
      rcases tv with _ | c
      · simp [growthRate] at h
      · by_cases hc : c = 0
        · subst hc; simp [growthRate] at h
        · simp [growthRate, hc] at h
    · rcases tv with _ | c
      · simp [growthRate, hl] at h
      · rw [growthRate_of_present l c hl] at h
        exact ⟨l, c, rfl, hl, rfl, (GrowthVal.rate.inj h).symm⟩

lemma insertKey_nodup (acc : List String) (a : String) (h : acc.Nodup) :
    (insertKey acc a).Nodup := by
  unfold insertKey
  by_cases ha : a ∈ acc
  · simpa [ha] using h
  · simp [ha, List.nodup_append, h, List.disjoint_singleton]

lemma foldl_insertKey_nodup : ∀ (l : List String) (acc : List String),
    acc.Nodup → (l.foldl insertKey acc).Nodup := by
  intro l
  induction l with
  | nil => intro acc h; simpa using h
  | cons a l ih =>
    intro acc h
    simp only [List.foldl_cons]
    exact ih _ (insertKey_nodup acc a h)

lemma mem_insertKey (acc : List String) (a b : String) (h : b ∈ acc) : b ∈ insertKey acc a := by
  unfold insertKey
  by_cases ha : a ∈ acc
  · simpa [ha] using h
  · simp [ha, List.mem_append, h]

lemma self_mem_insertKey (acc : List String) (a : String) : a ∈ insertKey acc a := by
  unfold insertKey
  by_cases ha : a ∈ acc
  · simp only [if_pos ha]
    exact ha
  · simp [ha]

lemma mem_foldl_insertKey : ∀ (l : List String) (acc : List String) (a : String),
    (a ∈ l ∨ a ∈ acc) → a ∈ l.foldl insertKey acc := by
  intro l
  induction l with
  | nil =>
    intro acc a h
    rcases h with h | h
    · simp at h
    · simpa using h
  | cons x l ih =>
    intro acc a h
    simp only [List.foldl_cons]
    rcases h with h | h
    · rcases List.mem_cons.1 h with h1 | h2
      · subst h1
        exact ih _ _ (Or.inr (self_mem_insertKey acc a))
      · exact ih _ _ (Or.inl h2)
    · exact ih _ _ (Or.inr (mem_insertKey acc x a h))

lemma foldl_insertKey_id : ∀ (l : List String) (acc : List String),
    (∀ a ∈ l, a ∈ acc) → l.foldl insertKey acc = acc := by
  intro l
  induction l with
  | nil => intro acc _; rfl
  | cons x l ih =>
    intro acc h
    have hx : x ∈ acc := h x (by simp)
    simp only [List.foldl_cons, insertKey, if_pos hx]
    exact ih acc (fun a ha => h a (by simp [ha]))

lemma dedupKeys_nodup (l : List String) : (dedupKeys l).Nodup :=
  foldl_insertKey_nodup l [] List.nodup_nil

lemma dedupKeys_append_self (l : List String) : dedupKeys (l ++ l) = dedupKeys l := by
  unfold dedupKeys
  rw [List.foldl_append]
  exact foldl_insertKey_id l _ (fun a ha => mem_foldl_insertKey l [] a (Or.inl ha))

lemma foldl_append_map {α β : Type} (f : α → β) : ∀ (l : List α) (acc : List β),
    l.foldl (fun row x => row ++ [f x]) acc = acc ++ l.map f := by
  intro l
  induction l with
  | nil => intro acc; simp
  | cons x l ih => intro acc; simp [ih]

lemma foldl_append_blocks {α β : Type} (g : α → List β) : ∀ (l : List α) (acc : List β),
    l.foldl (fun rows p => rows ++ g p) acc = acc ++ (l.map g).flatten := by
  intro l
  induction l with
  | nil => intro acc; simp
  | cons x l ih => intro acc; simp [ih]

lemma buildCellRow_eq (label : String) (cs : List String) (f : String → String) :
    buildCellRow label cs f = specRow label cs f := by
  unfold buildCellRow specRow
  rw [foldl_append_map]
  simp

lemma generate_eq_spec (rd : List (String × IndicatorData)) (cos : List String) :
    generate_output_table rd cos = specOutputTable rd cos := by
  unfold generate_output_table specOutputTable
  rw [foldl_append_blocks]
  simp only [List.nil_append]
  congr 1
  apply List.map_congr_left
  intro p _
  simp [buildCellRow_eq]

lemma process_missing_eq (t : RawTable) (path cf : String)
    (h : (extract_indicators_from_template t 1).1 = []) :
    process_excel_file t path cf =
      { ret := (none, [])
        dialog := some ("指标错误", "在文件 " ++ path ++ " 中未找到有效指标") } := by
  unfold process_excel_file
  rw [if_pos h]

lemma process_nocity_eq (t : RawTable) (path cf : String)
    (h1 : (extract_indicators_from_template t 1).1 ≠ [])
    (h2 : extractCityData t cf (extract_indicators_from_template t 1).2 = []) :
    process_excel_file t path cf =
      { ret := (none, [])
        dialog := some ("数据错误",
          "在文件 " ++ path ++ " 中未找到" ++ cf ++ "市的数据") } := by
  unfold process_excel_file
  rw [if_neg h1]
  simp [h2]

lemma run_processing_abort (t_last t_this : RawTable) (pl pt : String)
    (chosen : String → Bool) (h : (extract_indicators_from_template t_last 1).1 = []) :
    run_processing t_last t_this pl pt chosen = none := by
  unfold run_processing
  rw [process_missing_eq t_last pl "忻州" h]

lemma mem_extract_values_length (t : RawTable) (cf : String) (v : List Nat)
    (r : ExtractedRow) (h : r ∈ extractCityData t cf v) : r.values.length = v.length := by
  rw [extract_eq_spec] at h
  unfold specExtract at h
  obtain ⟨i, _, hr⟩ := List.mem_filterMap.1 h
  by_cases hc : currentCityAfter t (i + 1) = some cf ∧ countyNameAt t i ≠ ""
  · rw [if_pos hc] at hr
    rw [← Option.some.inj hr]
    simp [makeRowData]
  · rw [if_neg hc] at hr
    exact absurd hr (by simp)

lemma generate_length (rd : List (String × IndicatorData)) (cos : List String) :
    (generate_output_table rd cos).length = 3 * rd.length := by
  rw [generate_eq_spec]
  unfold specOutputTable
  induction rd with
  | nil => simp
  | cons p rd ih =>
    simp only [List.map_cons, List.flatten_cons, List.length_append, List.length_cons,
      List.length_nil] at ih ⊢
    omega

lemma generate_row_length (rd : List (String × IndicatorData)) (cos : List String)
    (row : List String) (h : row ∈ generate_output_table rd cos) :
    row.length = 1 + cos.length := by
  rw [generate_eq_spec] at h
  unfold specOutputTable at h
  obtain ⟨block, hb, hr⟩ := List.mem_flatten.1 h
  obtain ⟨p, _, rfl⟩ := List.mem_map.1 hb
  simp only [List.mem_cons, List.not_mem_nil, or_false] at hr
  rcases hr with rfl | rfl | rfl <;> simp [specRow] <;> omega

/-!  Claim theorems. -/

/-- C1, counterexample: the claimed growth-rate classification fails at
previous = 100, current = absent, where the code computes
`(NaN - 100) / 100 * 100 = NaN` (undefined) although the previous value is
present and non-zero, so the claim's "undefined only when both values are
absent/zero" clause is violated. -/
theorem C1_counterexample : ¬ growthClaim (some 100) none := by
  intro h
  have hnz : ¬ absentOrZero (some (100 : Rat)) := by
    simp [absentOrZero]
  obtain ⟨p, c, _, hc, _⟩ := h.2.2 hnz
  exact Option.noConfusion hc

/-- C1, amended: for every (indicator, county) pair where both years' rows
are found, the growth rate computed by `calculate_growth_rates` is
undefined exactly when both values are absent/zero or when the previous
value is present and non-zero but the current value is absent; it is
infinite exactly when the previous value is absent/zero and the current
value is present and non-zero; when both values are present and the
previous is non-zero it equals `(current - previous) / previous * 100` — in
particular previous 100 and current 150 give 50, previous 0 and current 50
give infinite, and previous/current both 0 or both absent give undefined;
and the per-county growth entry of `calculate_growth_rates` is exactly this
classification of the two looked-up values. -/
theorem C1_growth_rate_amended :
    (∀ lv tv : Option Rat, growthRate lv tv = GrowthVal.nan ↔
      ((absentOrZero lv ∧ absentOrZero tv) ∨ (¬ absentOrZero lv ∧ tv = none))) ∧
    (∀ lv tv : Option Rat, growthRate lv tv = GrowthVal.inf ↔
      (absentOrZero lv ∧ ∃ c, tv = some c ∧ c ≠ 0)) ∧
    (∀ l c : Rat, l ≠ 0 →
      growthRate (some l) (some c) = GrowthVal.rate ((c - l) / l * 100)) ∧
    (growthRate (some 100) (some 150) = GrowthVal.rate 50 ∧
     growthRate (some 0) (some 50) = GrowthVal.inf ∧
     growthRate (some 0) (some 0) = GrowthVal.nan ∧
     growthRate none none = GrowthVal.nan) ∧
    (∀ (df_last_year df_this_year : DataFrame) (indicators counties : List String)
        (indicator county : String) (last_year_row this_year_row : ExtractedRow)
        (d : IndicatorData),
      indicator ∈ indicators → county ∈ counties →
      findRow df_last_year county = some last_year_row →
      findRow df_this_year county = some this_year_row →
      dictGet (calculate_growth_rates df_last_year df_this_year indicators counties)
        indicator = some d →
      dictGet d.growth_rates county =
        some (growthRate (df_last_year.lookupValue last_year_row indicator)
          (df_this_year.lookupValue this_year_row indicator))) := by
  refine ⟨growthRate_nan_iff, growthRate_inf_iff,
    (fun l c hl => growthRate_of_present l c hl),
    ⟨by decide, by decide, by decide, by decide⟩, ?_⟩
  intro dfl dft inds cos ind county lr tr d hind hco hl ht hd
  exact calc_growth_lookup dfl dft inds cos ind county lr tr d hind hco hl ht hd

/-- C1, witness: the amended theorem applied at previous 100 and current
150, and at a concrete one-indicator one-county pair of DataFrames. -/
theorem C1_amended_witness :
    growthRate (some 100) (some 150) = GrowthVal.rate ((150 - 100) / 100 * 100) ∧
    dictGet d1.growth_rates "甲" =
      some (growthRate (dfL1.lookupValue ⟨"忻州", "甲", [some 100]⟩ "指标A")
        (dfT1.lookupValue ⟨"忻州", "甲", [some 150]⟩ "指标A")) := by
  have h := C1_growth_rate_amended
  refine ⟨h.2.2.1 100 150 (by norm_num), ?_⟩
  exact h.2.2.2.2 dfL1 dfT1 ["指标A"] ["甲"] "指标A" "甲"
    ⟨"忻州", "甲", [some 100]⟩ ⟨"忻州", "甲", [some 150]⟩ d1
    (by decide) (by decide) (by decide) (by decide) (by decide)

/-- C2, counterexample: a missing-indicators input and a no-matching-city
input on which `process_excel_file` raises the two distinct error dialogs
yet returns exactly the same value `(None, [])` to its caller — the two
failure cases are not distinguishable by the returned value. -/
theorem C2_counterexample :
    (process_excel_file Tmiss "last.xlsx" "忻州").dialog =
      some ("指标错误", "在文件 last.xlsx 中未找到有效指标") ∧
    (process_excel_file Tnocity "this.xlsx" "忻州").dialog =
      some ("数据错误", "在文件 this.xlsx 中未找到忻州市的数据") ∧
    (process_excel_file Tmiss "last.xlsx" "忻州").ret = (none, []) ∧
    (process_excel_file Tmiss "last.xlsx" "忻州").ret =
      (process_excel_file Tnocity "this.xlsx" "忻州").ret := by
  refine ⟨by decide, by decide, by decide, by decide⟩

/-- C2, amended: the missing-indicators condition and the no-matching-city
condition are reported as two distinguishable error outcomes through the
error dialog shown to the operator — titled 指标错误 and 数据错误
respectively, which differ — while the value returned to the caller is the
identical `(None, [])` in both failure cases. -/
theorem C2_failure_reporting :
    (∀ (t : RawTable) (path cf : String),
      (extract_indicators_from_template t 1).1 = [] →
        process_excel_file t path cf =
          { ret := (none, [])
            dialog := some ("指标错误", "在文件 " ++ path ++ " 中未找到有效指标") }) ∧
    (∀ (t : RawTable) (path cf : String),
      (extract_indicators_from_template t 1).1 ≠ [] →
      extractCityData t cf (extract_indicators_from_template t 1).2 = [] →
        process_excel_file t path cf =
          { ret := (none, [])
            dialog := some ("数据错误",
              "在文件 " ++ path ++ " 中未找到" ++ cf ++ "市的数据") }) ∧
    ("指标错误" : String) ≠ "数据错误" :=
  ⟨process_missing_eq, process_nocity_eq, by decide⟩

/-- C2, witness: the amended theorem applied to the two concrete failing
tables. -/
theorem C2_failure_reporting_witness :
    process_excel_file Tmiss "last.xlsx" "忻州" =
      { ret := (none, [])
        dialog := some ("指标错误", "在文件 " ++ "last.xlsx" ++ " 中未找到有效指标") } ∧
    process_excel_file Tnocity "this.xlsx" "忻州" =
      { ret := (none, [])
        dialog := some ("数据错误",
          "在文件 " ++ "this.xlsx" ++ " 中未找到" ++ "忻州" ++ "市的数据") } :=
  ⟨C2_failure_reporting.1 Tmiss "last.xlsx" "忻州" (by decide),
   C2_failure_reporting.2.1 Tnocity "this.xlsx" "忻州" (by decide) (by decide)⟩

/-- C3: the row scan applies forward fill to the city column — the current
city after any row equals the most recent non-blank city cell at or above
it, the collected rows are exactly those whose forward-filled city matches
the target with a non-blank county, and on the concrete city column
`["A", "", "", "B", ""]` rows 2–3 resolve to city A, row 5 resolves to
city B, and the extractor collects counties c1–c3 under A and c4–c5
under B. -/
theorem C3_forward_fill :
    (∀ (t : RawTable) (i : Nat), currentCityAfter t (i + 1) = lastNonBlankCity t i) ∧
    (∀ (t : RawTable) (cf : String) (v : List Nat),
      extractCityData t cf v = specExtract t cf v) ∧
    ([currentCityAfter T3 2, currentCityAfter T3 3, currentCityAfter T3 5] =
      [some "A", some "A", some "B"]) ∧
    (extractCityData T3 "A" [] = [⟨"A", "c1", []⟩, ⟨"A", "c2", []⟩, ⟨"A", "c3", []⟩] ∧
     extractCityData T3 "B" [] = [⟨"B", "c4", []⟩, ⟨"B", "c5", []⟩]) :=
  ⟨fun t => ccA_eq_lastNonBlank t, extract_eq_spec, by decide, by decide, by decide⟩

/-- C4: for every header row, the indicator extractor reads the cells at
column 4, 6, 8, … , keeps exactly the non-blank ones in left-to-right
order with line breaks stripped from each name, and returns value-column
indices corresponding one-to-one and in order with the names; and a
stripped name contains no line break. -/
theorem C4_indicator_extraction :
    (∀ (t : RawTable) (h : Nat),
      extract_indicators_from_template t h =
        ((specIndicatorColumns t h).map (fun i => stripNewlines (t.cell h i).toStr),
         specIndicatorColumns t h)) ∧
    (∀ s : String, (stripNewlines s).toList.count '\n' = 0) := by
  refine ⟨extract_eq_specIndicator, ?_⟩
  intro s
  rw [List.count_eq_zero]
  intro h
  have hm := List.mem_filter.1 h
  simp at hm

/-- C5: the negative-indicator selection is a set of distinct names — its
result never repeats a name, duplicating the offered indicator list does
not change the selection nor the applied inversion, so a doubly-selected
indicator is inverted exactly once — and the pipeline applies the
inversion to both years' tables before `calculate_growth_rates` runs. -/
theorem C5_sign_inversion :
    (∀ (indicators : List String) (chosen : String → Bool),
      (select_negative_indicators indicators chosen).Nodup) ∧
    (∀ (indicators : List String) (chosen : String → Bool),
      select_negative_indicators (indicators ++ indicators) chosen =
        select_negative_indicators indicators chosen) ∧
    (∀ (indicators : List String) (chosen : String → Bool) (df_this df_last : DataFrame),
      applyNegs (select_negative_indicators (indicators ++ indicators) chosen) df_this df_last =
        applyNegs (select_negative_indicators indicators chosen) df_this df_last) ∧
    (∀ (df_last_year df_this_year : DataFrame) (chosen : String → Bool),
      run_core df_last_year df_this_year chosen =
        generate_output_table
          (calculate_growth_rates
            (applyNegs (select_negative_indicators
              (extract_indicators_and_counties df_last_year df_this_year).1 chosen)
              df_this_year df_last_year).2
            (applyNegs (select_negative_indicators
              (extract_indicators_and_counties df_last_year df_this_year).1 chosen)
              df_this_year df_last_year).1
            (extract_indicators_and_counties df_last_year df_this_year).1
            (extract_indicators_and_counties df_last_year df_this_year).2)
          (extract_indicators_and_counties df_last_year df_this_year).2) := by
  refine ⟨?_, ?_, ?_, ?_⟩
  · intro indicators chosen
    exact (dedupKeys_nodup indicators).filter _
  · intro indicators chosen
    unfold select_negative_indicators
    rw [dedupKeys_append_self]
  · intro indicators chosen df_this df_last
    unfold select_negative_indicators
    rw [dedupKeys_append_self]
  · intro df_last_year df_this_year chosen
    rfl

/-- C6: every extracted row carries one value per designated value column
(and the discovered names and columns have equal length, so one value per
indicator), an absent source cell stays absent, and a non-numeric source
cell coerces to absent — never to the number zero. -/
theorem C6_row_invariant :
    (∀ (t : RawTable) (cf : String) (v : List Nat) (r : ExtractedRow),
      r ∈ extractCityData t cf v → r.values.length = v.length) ∧
    (∀ (t : RawTable) (h : Nat),
      (extract_indicators_from_template t h).1.length =
        (extract_indicators_from_template t h).2.length) ∧
    (Cell.toNumeric Cell.blank = none) ∧
    (∀ s : String, parseDecimal? s = none → Cell.toNumeric (Cell.str s) = none) := by
  refine ⟨mem_extract_values_length, ?_, rfl, ?_⟩
  · intro t h
    rw [extract_eq_specIndicator]
    simp
  · intro s h
    simpa [Cell.toNumeric] using h

/-- C6, witness: the theorem applied to a concrete table whose one value
cell holds the non-numeric string "abc". -/
theorem C6_row_invariant_witness :
    (⟨"忻州", "甲", [none]⟩ : ExtractedRow).values.length = [4].length ∧
    Cell.toNumeric (Cell.str "abc") = none :=
  ⟨C6_row_invariant.1 T6 "忻州" [4] ⟨"忻州", "甲", [none]⟩ (by decide),
   C6_row_invariant.2.2.2 "abc" (by decide)⟩

/-- C7: the comparison grid holds, per indicator, exactly three consecutive
rows in the order current value, prior value, growth rate, each with one
cell per county beyond the label cell; the growth cell is 无限增长 for
infinite growth, N/A for absent or undefined growth, and otherwise the
rate as a two-decimal percentage; and the end-to-end scenario with prior
values 10, 20 and current values 15, 8 produces exactly the three rows with
growth cells 50.00% and -60.00%. -/
theorem C7_output_table :
    (∀ (rd : List (String × IndicatorData)) (cos : List String),
      generate_output_table rd cos = specOutputTable rd cos) ∧
    (∀ (rd : List (String × IndicatorData)) (cos : List String),
      (generate_output_table rd cos).length = 3 * rd.length) ∧
    (∀ (rd : List (String × IndicatorData)) (cos : List String) (row : List String),
      row ∈ generate_output_table rd cos → row.length = 1 + cos.length) ∧
    (formatGrowthCell (some GrowthVal.inf) = "无限增长" ∧
     formatGrowthCell (some GrowthVal.nan) = "N/A" ∧
     formatGrowthCell none = "N/A" ∧
     formatGrowthCell (some (GrowthVal.rate 50)) = "50.00%" ∧
     formatGrowthCell (some (GrowthVal.rate (Rat.divInt (-60) 1))) = "-60.00%") ∧
    (run_processing Tprior Tcurr "last.xlsx" "this.xlsx" (fun _ => false) =
      some [["销量", "15.00", "8.00"], ["同期", "10.00", "20.00"],
            ["同比增幅%", "50.00%", "-60.00%"]]) :=
  ⟨generate_eq_spec, generate_length, generate_row_length,
   ⟨rfl, rfl, rfl, by decide, by decide⟩, by decide⟩

/-- C7, witness: the row-width property of the theorem applied to a
concrete one-indicator, one-county result. -/
theorem C7_output_table_witness :
    (["同比增幅%", "50.00%"] : List String).length = 1 + (["甲"] : List String).length :=
  C7_output_table.2.2.1 [("指标A", d1)] ["甲"] ["同比增幅%", "50.00%"] (by decide)

/-- C8: an out-of-range header row index makes the indicator extractor
return empty lists rather than fail, `process_excel_file` turns the empty
indicator list into the missing-indicators error outcome with the
`(None, [])` return, and `run_processing` aborts the run for such a
prior-year file. -/
theorem C8_header_out_of_range :
    (∀ (t : RawTable) (h : Nat), t.nrows ≤ h → extract_indicators_from_template t h = ([], [])) ∧
    (∀ (t : RawTable) (path cf : String),
      (extract_indicators_from_template t 1).1 = [] →
        (process_excel_file t path cf).ret = (none, []) ∧
        (process_excel_file t path cf).dialog =
          some ("指标错误", "在文件 " ++ path ++ " 中未找到有效指标")) ∧
    (∀ (t_last t_this : RawTable) (path_last path_this : String) (chosen : String → Bool),
      (extract_indicators_from_template t_last 1).1 = [] →
        run_processing t_last t_this path_last path_this chosen = none) := by
  refine ⟨?_, ?_, run_processing_abort⟩
  · intro t h hge
    unfold extract_indicators_from_template
    rw [if_pos hge]
  · intro t path cf h
    rw [process_missing_eq t path cf h]
    exact ⟨rfl, rfl⟩

/-- C8, witness: the theorem applied to a one-row table, whose fixed header
row index 1 is out of range. -/
theorem C8_header_out_of_range_witness :
    extract_indicators_from_template Tmiss 1 = ([], []) ∧
    run_processing Tmiss Tcurr "last.xlsx" "this.xlsx" (fun _ => false) = none :=
  ⟨C8_header_out_of_range.1 Tmiss 1 (by decide),
   C8_header_out_of_range.2.2 Tmiss Tcurr "last.xlsx" "this.xlsx" (fun _ => false) (by decide)⟩

/-- C9: the indicator and county lists used for the comparison table are
determined solely by the prior-year DataFrame — `extract_indicators_and_counties`
returns the same pair for any two current-year DataFrames. -/
theorem C9_prior_year_determines :
    ∀ (df_last_year dfA dfB : DataFrame),
      extract_indicators_and_counties df_last_year dfA =
        extract_indicators_and_counties df_last_year dfB :=
  fun _ _ _ => rfl

/-- C10: the growth computation divides only under its guard — a finite
rate arises only when the previous value is present and non-zero, in which
case it is the percentage formula with that non-zero divisor, so no
division by zero ever occurs. -/
theorem C10_division_guarded :
    ∀ (lv tv : Option Rat) (x : Rat), growthRate lv tv = GrowthVal.rate x →
      ∃ l c, lv = some l ∧ l ≠ 0 ∧ tv = some c ∧ x = (c - l) / l * 100 :=
  growthRate_rate_inv

/-- C10, witness: the theorem applied at previous 100, current 150, rate
50. -/
theorem C10_division_guarded_witness :
    ∃ l c, (some (100 : Rat)) = some l ∧ l ≠ 0 ∧ (some (150 : Rat)) = some c ∧
      (50 : Rat) = (c - l) / l * 100 :=
  C10_division_guarded (some 100) (some 150) 50 (by decide)

end XZ
